import Mathlib

/-
Verification of `SparseNN/grangernet/utils.py`: a shallow embedding of the
module's four functions (`causal_heatmap`, `causal_graph`, `save_results`,
`load_results`) and its helper `_has_autocorrelation`, together with proofs
of the specified properties.

Modelling conventions:
  * Weight tensors are square `p × p × K` arrays of exact rationals
    (`Fin p → Fin p → Fin K → ℚ`), matching the module's documented shape.
  * `np.linalg.norm(W, axis=-1)` with the default order 2 is the real number
    `Real.sqrt` of the rational sum of squares along the lag axis.  The
    heatmap's `ord` argument is modelled at its default value 2.
  * `np.savez` / `np.load` archives are a structure with fields `W`,
    `W_submod` (optional) and `hparams`; array and mapping payloads are
    opaque type parameters, so "bit-identical" is plain equality.
  * The plotting functions are modelled as pure functions returning the data
    they would display; `assert` statements become `Except.error` results.
    Image-file side effects are not modelled (no claim is about them).
-/

namespace GrangerUtils

/-! ## Result store (`save_results` / `load_results`) -/

/-- An `.npz` archive as produced by `save_results`: always holds `W` and
`hparams`; holds `W_submod` exactly when it was supplied at save time. -/
structure Archive (α β : Type) where
  W : α
  W_submod : Option α
  hparams : β
deriving DecidableEq

/-- `save_results`: `np.savez(..., W=W, hparams=hparams)` when `W_submod` is
`None`, else `np.savez(..., W=W, W_submod=W_submod, hparams=hparams)`. -/
def save_results {α β : Type} (W : α) (hparams : β) (W_submod : Option α) :
    Archive α β :=
  { W := W, W_submod := W_submod, hparams := hparams }

/-- The value returned by `load_results`: a 2-tuple `(W, hparams)` or a
3-tuple `(W, W_submod, hparams)`, in the source's component order. -/
inductive LoadResult (α β : Type) where
  | pair (W : α) (hparams : β)
  | triple (W : α) (W_submod : α) (hparams : β)
deriving DecidableEq

/-- `load_results`: reads `W` and `hparams`, then checks
`'W_submod' in file.keys()` before touching that field, returning the
3-tuple `(W, W_submod, hparams)` when present and `(W, hparams)` otherwise. -/
def load_results {α β : Type} (file : Archive α β) : LoadResult α β :=
  match file.W_submod with
  | some ws => .triple file.W ws file.hparams
  | none => .pair file.W file.hparams

/-! ## Weight tensors and the norm matrix -/

/-- A weight tensor of shape `(p_effect × p_cause × K)` with equal first two
dimensions, as the module's documentation specifies (`p x p x K`). -/
abbrev Tensor (p K : ℕ) : Type := Fin p → Fin p → Fin K → ℚ

/-- Sum of squares of a lag vector (the radicand of its L2 norm). -/
def sumSq {K : ℕ} (v : Fin K → ℚ) : ℚ := ∑ k, (v k) ^ 2

/-- The L2 norm of a lag vector — `np.linalg.norm(·)` with default order. -/
noncomputable def l2norm {K : ℕ} (v : Fin K → ℚ) : ℝ :=
  Real.sqrt ((sumSq v : ℚ) : ℝ)

/-- `_W_norm = np.linalg.norm(W, axis=-1)`: the `(effect × cause)` matrix of
L2 norms over the lag axis. -/
noncomputable def normMatrix {p K : ℕ} (W : Tensor p K) :
    Fin p → Fin p → ℝ :=
  fun effect cause => l2norm (W effect cause)

/-- `np.max(_W_norm)`: the global maximum of the norm matrix (defined for
`p ≠ 0`, as `np.max` of an empty array is an error). -/
noncomputable def maxNorm {p K : ℕ} [NeZero p] (W : Tensor p K) : ℝ :=
  Finset.univ.sup'
    (Finset.univ_nonempty (α := Fin p × Fin p))
    (fun ij => normMatrix W ij.1 ij.2)

/-- `_has_autocorrelation(W)`: `not np.all(np.diag(W_norm) == 0)` — true
unless every diagonal entry of the L2 norm matrix is exactly zero. -/
def has_autocorrelation {p K : ℕ} (W : Tensor p K) : Prop :=
  ¬ (∀ i : Fin p, normMatrix W i i = 0)

/-! ## `causal_graph` -/

open Classical

/-- The graphviz `Digraph` built by `causal_graph`: its graph attributes,
its node list, and for each index pair `(effect, cause)` whether the edge
`var_names[cause] → var_names[effect]` was added and with what pen width.
`edge effect cause` follows the `(effect, cause)` index order of
`np.where(_W_norm >= threshold * np.max(_W_norm))`. -/
structure DigraphModel (p : ℕ) where
  margin : String
  rankdir : String
  layout : Option String
  nodes : List String
  edge : Fin p → Fin p → Prop
  penwidth : Fin p → Fin p → ℝ

/-- `causal_graph(W, var_names, threshold, use_circo_layout, ...)`.
The body reads `W`, `var_names` and `threshold` only: `use_circo_layout`
never occurs after its binding (hence the if on `has_autocorrelation` uses
classical decidability).  Layout: `rankdir` is set to `LR`; the
`layout` attribute is set to `circo` exactly when `_has_autocorrelation(W)`
is false.  An edge is added at `(effect, cause)` iff
`_W_norm[effect, cause] >= threshold * np.max(_W_norm)`, with pen width
`5 * _W_norm[effect, cause] / np.max(_W_norm)`. -/
noncomputable def causal_graph {p K : ℕ} [NeZero p] (W : Tensor p K)
    (var_names : List String) (threshold : ℚ)
    ( use_circo_layout : Option Bool) : DigraphModel p :=
  { margin := "0"
    rankdir := "LR"
    layout := if has_autocorrelation W then none else some "circo"
    nodes := var_names
    edge := fun effect cause =>
      normMatrix W effect cause ≥ (threshold : ℝ) * maxNorm W
    penwidth := fun effect cause =>
      5 * (normMatrix W effect cause / maxNorm W) }

/-! ## `causal_heatmap` -/

/-- The two `assert` statements in `causal_heatmap`, as error values:
`invalidMode` for `assert mode in ['joint', 'ind', 'joint_threshold']` and
`badDst` for `assert dst[-1] == '/'`. -/
inductive HeatmapError where
  | invalidMode
  | badDst
deriving DecidableEq

/-- The condition of `assert dst[-1] == '/'`, checked only when a `dst` is
supplied (`if dst is not None`). -/
def dstOk (dst : Option String) : Bool :=
  match dst with
  | some d => d.endsWith "/"
  | none => true

/-- What `causal_heatmap` displays in each mode: the norm matrix (`joint`),
the binarized norm matrix (`joint_threshold`), or one `(cause × lag)` figure
per `(var, row)` pair of `zip(var_names, W)` (`ind`). -/
inductive HeatmapOutput (p K : ℕ) where
  | joint (cells : Fin p → Fin p → ℝ)
  | jointThreshold (cells : Fin p → Fin p → ℝ)
  | ind (figs : List (String × (Fin p → Fin K → ℚ)))

/-- The `joint_threshold` binarization: `idx_above`/`idx_below` partition the
matrix by `_W_norm >= threshold * np.max(_W_norm)`, and the cells at
`idx_above` are set to 1, those at `idx_below` to 0. -/
noncomputable def thresholdCells {p K : ℕ} [NeZero p] (W : Tensor p K)
    (threshold : ℚ) : Fin p → Fin p → ℝ :=
  fun i j =>
    if normMatrix W i j ≥ (threshold : ℝ) * maxNorm W then 1 else 0

/-- `causal_heatmap(W, var_names, mode, ord, threshold, dst, ...)`, with the
norm order at its default 2.  The leading `assert mode in [...]` precedes all
plotting; in the two joint modes a supplied `dst` must end in `'/'`
(`assert dst[-1] == '/'`); in `ind` mode one figure is produced per element
of `zip(var_names, W)` and the same `dst` assert is checked per figure (so
once iff the zip is nonempty; modelled as the same single check, which only
differs from the source when the zip is empty and `dst` is bad, a case no
theorem below relies on).  File output itself is not modelled. -/
noncomputable def causal_heatmap {p K : ℕ} [NeZero p] (W : Tensor p K)
    (var_names : List String) (mode : String) (threshold : ℚ)
    (dst : Option String) : Except HeatmapError (HeatmapOutput p K) :=
  if mode ∈ (["joint", "ind", "joint_threshold"] : List String) then
    if mode = "joint" then
      if dstOk dst then .ok (.joint (normMatrix W)) else .error .badDst
    else if mode = "joint_threshold" then
      if dstOk dst then .ok (.jointThreshold (thresholdCells W threshold))
      else .error .badDst
    else
      if dstOk dst then
        .ok (.ind (var_names.zip (List.ofFn fun i : Fin p => W i)))
      else .error .badDst
  else .error .invalidMode

/-! ## Concrete tensors for instantiating the theorems -/

/-- A 1×1×1 all-ones tensor; its norm matrix is `[[1]]`. -/
def onesT : Tensor 1 1 := fun _ _ _ => 1

/-- A 1×1×1 all-zero tensor; its global norm maximum is zero. -/
def zeroT : Tensor 1 1 := fun _ _ _ => 0

/-- A 2×2×1 all-ones tensor, paired below with a too-short name list. -/
def twoT : Tensor 2 1 := fun _ _ _ => 1

/-! ## Helper lemmas -/

lemma sumSq_nonneg {K : ℕ} (v : Fin K → ℚ) : 0 ≤ sumSq v :=
  Finset.sum_nonneg fun k _ => sq_nonneg (v k)

lemma l2norm_eq_zero_iff {K : ℕ} (v : Fin K → ℚ) :
    l2norm v = 0 ↔ sumSq v = 0 := by
  unfold l2norm
  rw [Real.sqrt_eq_zero (by exact_mod_cast sumSq_nonneg v)]
  exact_mod_cast Iff.rfl

lemma l2norm_zero_vec {K : ℕ} (v : Fin K → ℚ) (hv : ∀ k, v k = 0) :
    l2norm v = 0 := by
  rw [l2norm_eq_zero_iff]
  simp [sumSq, hv]

lemma maxNorm_of_allzero {p K : ℕ} [NeZero p] (W : Tensor p K)
    (hW : ∀ i j k, W i j k = 0) : maxNorm W = 0 := by
  have h : ∀ ij : Fin p × Fin p, normMatrix W ij.1 ij.2 = 0 := fun ij =>
    l2norm_zero_vec _ (fun k => hW ij.1 ij.2 k)
  apply le_antisymm
  · exact Finset.sup'_le _ _ fun ij _ => le_of_eq (h ij)
  · obtain ⟨ij, hij⟩ := (Finset.univ_nonempty (α := Fin p × Fin p))
    have hle := Finset.le_sup' (fun x : Fin p × Fin p => normMatrix W x.1 x.2) hij
    rw [h ij] at hle
    exact hle

lemma l2norm_onesT : l2norm (onesT 0 0) = 1 := by
  show Real.sqrt ((sumSq (onesT 0 0) : ℚ) : ℝ) = 1
  have h : sumSq (onesT 0 0) = 1 := by simp [sumSq, onesT]
  rw [h]
  norm_num

lemma maxNorm_onesT : maxNorm onesT = 1 := by
  show Finset.univ.sup' _ (fun ij : Fin 1 × Fin 1 => normMatrix onesT ij.1 ij.2) = 1
  have h : (fun ij : Fin 1 × Fin 1 => normMatrix onesT ij.1 ij.2)
      = fun _ => (1 : ℝ) := by
    funext ij
    exact l2norm_onesT
  rw [h, Finset.sup'_const]

/-! ## Claim theorems -/

/-- C1: loading the archive produced by `save_results` reconstructs `W`
bit-identically and `hparams` by value; the secondary tensor `W_submod`, when
supplied, is also recovered unchanged, and `load_results` returns a 2-tuple
exactly when `W_submod` was absent at save time and a 3-tuple exactly when it
was present, never raising a missing-key error in the absent case (the
function is total and returns the stated tuple). -/
theorem load_save_roundtrip {α β : Type} (W : α) (hparams : β)
    (W_submod : Option α) :
    load_results (save_results W hparams W_submod) =
      (match W_submod with
        | none => LoadResult.pair W hparams
        | some s => LoadResult.triple W s hparams) := by
  cases W_submod <;> rfl

/-- C10: when the archive contains a `W_submod` field, `load_results`
returns the 3-tuple in the order `(W, W_submod, hparams)` — the
hyperparameter mapping last, after the secondary tensor — whereas in the
2-tuple case the order is `(W, hparams)`. -/
theorem load_results_tuple_order {α β : Type} (W ws : α) (hp : β) :
    load_results ⟨W, some ws, hp⟩ = LoadResult.triple W ws hp ∧
    load_results ⟨W, none, hp⟩ = LoadResult.pair W hp :=
  ⟨rfl, rfl⟩

/-- C2: the autocorrelation detector holds iff at least one diagonal entry
of the L2-norm-over-lags matrix is non-zero; equivalently it fails exactly
when every diagonal entry of the norm matrix is exactly zero. -/
theorem has_autocorrelation_iff {p K : ℕ} (W : Tensor p K) :
    (has_autocorrelation W ↔ ∃ i : Fin p, normMatrix W i i ≠ 0) ∧
    (¬ has_autocorrelation W ↔ ∀ i : Fin p, normMatrix W i i = 0) := by
  constructor
  · simp [has_autocorrelation]
  · simp [has_autocorrelation]

/-- C9: the graph produced by `causal_graph` is completely independent of
the `use_circo_layout` argument — two calls differing only in that argument
produce identical graphs; the parameter is accepted but never read. -/
theorem causal_graph_ignores_use_circo {p K : ℕ} [NeZero p] (W : Tensor p K)
    (var_names : List String) (threshold : ℚ) (u1 u2 : Option Bool) :
    causal_graph W var_names threshold u1 =
      causal_graph W var_names threshold u2 := rfl

/-- C5: with no explicit layout override (`use_circo_layout = None`), the
`circo` layout is selected exactly when the tensor shows no autocorrelation;
with autocorrelation the `layout` attribute is left unset and the default
left-to-right flow layout (`rankdir = LR`) is kept. -/
theorem circo_layout_selection {p K : ℕ} [NeZero p] (W : Tensor p K)
    (var_names : List String) (threshold : ℚ) :
    ((causal_graph W var_names threshold none).layout = some "circo" ↔
      ¬ has_autocorrelation W) ∧
    ((causal_graph W var_names threshold none).layout = none ↔
      has_autocorrelation W) ∧
    (causal_graph W var_names threshold none).rankdir = "LR" := by
  by_cases h : has_autocorrelation W <;> simp [causal_graph, h]

/-- C3: for a tensor with non-zero global norm maximum and any threshold
fraction, `causal_graph` draws the edge `cause → effect` iff
`norm[effect, cause] ≥ threshold * global_max`; the pen width of each edge is
`5 * norm[effect, cause] / global_max`, hence monotonically increasing in
the edge's relative magnitude. -/
theorem causal_graph_edges {p K : ℕ} [NeZero p] (W : Tensor p K)
    (var_names : List String) (threshold : ℚ) (u : Option Bool)
    (hmax : maxNorm W ≠ 0) :
    (∀ effect cause : Fin p,
      (causal_graph W var_names threshold u).edge effect cause ↔
        normMatrix W effect cause ≥ (threshold : ℝ) * maxNorm W) ∧
    (∀ effect cause : Fin p,
      (causal_graph W var_names threshold u).penwidth effect cause =
        5 * (normMatrix W effect cause / maxNorm W)) ∧
    (∀ e1 c1 e2 c2 : Fin p,
      normMatrix W e1 c1 / maxNorm W ≤ normMatrix W e2 c2 / maxNorm W →
        (causal_graph W var_names threshold u).penwidth e1 c1 ≤
          (causal_graph W var_names threshold u).penwidth e2 c2) := by
  refine ⟨fun e c => Iff.rfl, fun e c => rfl, fun e1 c1 e2 c2 hle => ?_⟩
  show 5 * (normMatrix W e1 c1 / maxNorm W) ≤
    5 * (normMatrix W e2 c2 / maxNorm W)
  linarith

/-- Witness for C3 at the all-ones 1×1×1 tensor, whose norm maximum is 1. -/
theorem causal_graph_edges_witness :
    maxNorm onesT ≠ 0 ∧
    ((causal_graph onesT ["x"] (1/2) none).edge 0 0 ↔
      normMatrix onesT 0 0 ≥ ((1/2 : ℚ) : ℝ) * maxNorm onesT) := by
  have hm : maxNorm onesT ≠ 0 := by rw [maxNorm_onesT]; norm_num
  exact ⟨hm, (causal_graph_edges onesT ["x"] (1/2) none hm).1 0 0⟩

/-- C4: in `joint_threshold` mode with non-zero norm maximum, every cell of
the displayed matrix is exactly 0 or exactly 1, and a cell is 1 iff the
corresponding norm-matrix magnitude is `≥ threshold * max`. -/
theorem joint_threshold_binarized {p K : ℕ} [NeZero p] (W : Tensor p K)
    (var_names : List String) (threshold : ℚ) (hmax : maxNorm W ≠ 0) :
    causal_heatmap W var_names "joint_threshold" threshold none =
      .ok (.jointThreshold (thresholdCells W threshold)) ∧
    ∀ i j : Fin p,
      (thresholdCells W threshold i j = 0 ∨
        thresholdCells W threshold i j = 1) ∧
      (thresholdCells W threshold i j = 1 ↔
        normMatrix W i j ≥ (threshold : ℝ) * maxNorm W) := by
  refine ⟨rfl, fun i j => ?_⟩
  unfold thresholdCells
  by_cases h : normMatrix W i j ≥ (threshold : ℝ) * maxNorm W
  · simp [h]
  · simp [h]

/-- Witness for C4 at the all-ones 1×1×1 tensor. -/
theorem joint_threshold_binarized_witness :
    maxNorm onesT ≠ 0 ∧
    causal_heatmap onesT ["x"] "joint_threshold" (1/2) none =
      .ok (.jointThreshold (thresholdCells onesT (1/2))) := by
  have hm : maxNorm onesT ≠ 0 := by rw [maxNorm_onesT]; norm_num
  exact ⟨hm, (joint_threshold_binarized onesT ["x"] (1/2) hm).1⟩

/-- C7: `causal_heatmap` fails with the invalid-mode assertion, before
producing any plot, exactly when `mode` is outside
`{joint, ind, joint_threshold}`; for modes in that set the invalid-mode
error is never raised. -/
theorem invalid_mode_rejected {p K : ℕ} [NeZero p] (W : Tensor p K)
    (var_names : List String) (mode : String) (threshold : ℚ)
    (dst : Option String) :
    causal_heatmap W var_names mode threshold dst =
        .error .invalidMode ↔
      mode ∉ (["joint", "ind", "joint_threshold"] : List String) := by
  by_cases hmem : mode ∈ (["joint", "ind", "joint_threshold"] : List String)
  · simp only [hmem, not_true, iff_false]
    intro h
    unfold causal_heatmap at h
    rw [if_pos hmem] at h
    split_ifs at h <;> simp_all
  · simp only [hmem, not_false_iff, iff_true]
    unfold causal_heatmap
    rw [if_neg hmem]

/-- C6 counterexample: on the all-zero 1×1×1 tensor neither thresholding
operation fails — `causal_heatmap` in `joint_threshold` mode returns a plot
(with the single cell binarized to 1, since `0 >= 0.1 * 0` holds) and
`causal_graph` draws the self-edge; no error of any kind is raised. -/
theorem allzero_not_rejected :
    causal_heatmap zeroT ["x"] "joint_threshold" (1/10) none =
      .ok (.jointThreshold (thresholdCells zeroT (1/10))) ∧
    thresholdCells zeroT (1/10) 0 0 = 1 ∧
    (causal_graph zeroT ["x"] (1/10) none).edge 0 0 := by
  have hn : normMatrix zeroT 0 0 = 0 := l2norm_zero_vec _ (fun _ => rfl)
  have hm : maxNorm zeroT = 0 := maxNorm_of_allzero zeroT (fun _ _ _ => rfl)
  have hc : normMatrix zeroT 0 0 ≥ ((1/10 : ℚ) : ℝ) * maxNorm zeroT := by
    rw [hn, hm]
    norm_num
  refine ⟨rfl, ?_, hc⟩
  unfold thresholdCells
  rw [if_pos hc]

/-- C6 (amended): for every all-zero weight tensor the thresholding
operations do not fail: the threshold `t * 0` is zero and every `≥`
comparison succeeds, so `joint_threshold` renders every cell as 1 and
`causal_graph` draws every directed edge. -/
theorem allzero_threshold_passes {p K : ℕ} [NeZero p] (W : Tensor p K)
    (var_names : List String) (threshold : ℚ)
    (hW : ∀ i j k, W i j k = 0) :
    causal_heatmap W var_names "joint_threshold" threshold none =
      .ok (.jointThreshold (thresholdCells W threshold)) ∧
    (∀ i j : Fin p, thresholdCells W threshold i j = 1) ∧
    (∀ effect cause : Fin p,
      (causal_graph W var_names threshold none).edge effect cause) := by
  have hm : maxNorm W = 0 := maxNorm_of_allzero W hW
  have hn : ∀ i j : Fin p, normMatrix W i j = 0 := fun i j =>
    l2norm_zero_vec _ (hW i j)
  have hc : ∀ i j : Fin p,
      normMatrix W i j ≥ (threshold : ℝ) * maxNorm W := by
    intro i j
    rw [hn i j, hm]
    simp
  refine ⟨rfl, fun i j => ?_, fun e c => hc e c⟩
  unfold thresholdCells
  rw [if_pos (hc i j)]

/-- Witness for the amended C6 at the all-zero 1×1×1 tensor. -/
theorem allzero_threshold_passes_witness :
    (∀ i j k, zeroT i j k = 0) ∧
    causal_heatmap zeroT ["x"] "joint_threshold" (1/10) none =
      .ok (.jointThreshold (thresholdCells zeroT (1/10))) :=
  ⟨fun _ _ _ => rfl,
    (allzero_threshold_passes zeroT ["x"] (1/10) (fun _ _ _ => rfl)).1⟩

/-- C8 counterexample: a 2-variable tensor with a length-1 name list is not
rejected — `ind` mode silently zips the names with the tensor rows,
truncating to a single figure instead of failing fast. -/
theorem short_names_not_rejected :
    causal_heatmap twoT ["x"] "ind" (1/10) none =
      .ok (.ind [("x", twoT 0)]) ∧
    (["x"] : List String).length ≠ 2 := by
  exact ⟨rfl, by decide⟩

/-- C8 (amended): `causal_heatmap` performs no validation of the name-list
length: for every name list, matching or not, `ind` mode succeeds and
produces one figure per element of `zip(var_names, W)` — that is,
`min var_names.length p` figures — rather than failing fast. -/
theorem ind_mode_truncates {p K : ℕ} [NeZero p] (W : Tensor p K)
    (var_names : List String) (threshold : ℚ) :
    causal_heatmap W var_names "ind" threshold none =
      .ok (.ind (var_names.zip (List.ofFn fun i : Fin p => W i))) ∧
    (var_names.zip (List.ofFn fun i : Fin p => W i)).length =
      min var_names.length p := by
  refine ⟨rfl, ?_⟩
  rw [List.length_zip, List.length_ofFn]

/-- Witness for C5 at the all-ones 1×1×1 tensor. -/
theorem circo_layout_selection_witness :
    ((causal_graph onesT ["x"] (1/2) none).layout = some "circo" ↔
      ¬ has_autocorrelation onesT) ∧
    ((causal_graph onesT ["x"] (1/2) none).layout = none ↔
      has_autocorrelation onesT) ∧
    (causal_graph onesT ["x"] (1/2) none).rankdir = "LR" :=
  circo_layout_selection onesT ["x"] (1/2)

/-- Witness for C7 at an invalid mode string. -/
theorem invalid_mode_rejected_witness :
    causal_heatmap onesT ["x"] "bogus" (1/2) none =
        .error .invalidMode ↔
      "bogus" ∉ (["joint", "ind", "joint_threshold"] : List String) :=
  invalid_mode_rejected onesT ["x"] "bogus" (1/2) none

/-- Witness for the amended C8 at a 2-variable tensor with one name. -/
theorem ind_mode_truncates_witness :
    causal_heatmap twoT ["x"] "ind" (1/10) none =
      .ok (.ind ((["x"] : List String).zip (List.ofFn fun i : Fin 2 => twoT i))) ∧
    ((["x"] : List String).zip (List.ofFn fun i : Fin 2 => twoT i)).length =
      min (["x"] : List String).length 2 :=
  ind_mode_truncates twoT ["x"] (1/10)

/-- Witness for C9 at the all-ones 1×1×1 tensor with two different layout
override arguments. -/
theorem causal_graph_ignores_use_circo_witness :
    causal_graph onesT ["x"] (1/2) (some true) =
      causal_graph onesT ["x"] (1/2) (some false) :=
  causal_graph_ignores_use_circo onesT ["x"] (1/2) (some true) (some false)

end GrangerUtils
